import Mathlib

/-!
Shallow embedding of the cloud-storage application
(src/cloud_storage_app/app.py) and proofs about its core:
content-addressed deduplication, backend selection, authentication,
and ledger reconciliation against the document store.

The document database (two collections, `image_hashes` and `users`) is
modelled as explicit state (`DB`).  External effectful collaborators —
the MD5 and SHA-256 digests, PIL decode/re-encode, the storage-backend
`save` call, and the HTTP probe used by cleanup — are opaque to the
core logic and are passed in as an environment (`Env`) of pure oracle
functions; `none` models a raised exception / network failure.
Usernames are modelled with ASCII alphanumeric classification
(Python's `str.isalnum`, which the code uses as a guard, agrees with
`Char.isAlphanum` on ASCII).
-/

namespace Cloud

/-- Byte buffers are lists of bytes (values 0..255; the structure of the
bytes is only ever consumed by the oracles). -/
abbrev Bytes := List Nat

/-- One document of the `image_hashes` collection:
`{hash, filename, url, uploaded_by}` as inserted by `upload_image`. -/
structure DedupEntry where
  hash : String
  filename : String
  url : String
  uploaded_by : String
deriving DecidableEq, Repr

/-- One element of a user's `uploads` array:
`{filename, url, hash}` as written by `$addToSet`. -/
structure UploadRecord where
  filename : String
  url : String
  hash : String
deriving DecidableEq, Repr

/-- One document of the `users` collection. In the Python documents the
`uploads` field is always present (it is set at insertion); the model
therefore carries it as a plain list field. -/
structure UserAccount where
  username : String
  password_hash : String
  uploads : List UploadRecord
deriving DecidableEq, Repr

/-- The state of the MongoDB database `cloud_storage_db`:
the `image_hashes` collection and the `users` collection, each a list
of documents in insertion order (Mongo's `find_one`, `update_one` and
`delete_one` act on the first match in this order). -/
structure DB where
  hashes : List DedupEntry
  users : List UserAccount
deriving DecidableEq, Repr

/-- The two concrete storage backends. -/
inductive Backend where
  | firebase
  | cloudinary
deriving DecidableEq, Repr

/-- Environment of opaque external collaborators, as pure oracles.
`decode` models `PIL.Image.open` (`none` = decode raises) returning the
pixel dimensions; `encode` models `convert("RGB")` plus JPEG re-encoding
at a quality setting; `saveResult` models `StorageBackend.save`
(`none` = the save raised); `probe` models `requests.get` on a URL
(`none` = network exception, `some c` = response with status code `c`). -/
structure Env where
  md5 : Bytes → String
  sha256 : String → String
  decode : Bytes → Option (Nat × Nat)
  encode : Bytes → Nat → Bytes
  saveResult : Backend → String → Bytes → Option String
  probe : String → Option Nat

/-- Mongo `update_one`: apply `f` to the first element satisfying `p`;
no match means no change (the code never uses upsert on update). -/
def updateFirst (p : α → Bool) (f : α → α) : List α → List α
  | [] => []
  | x :: xs => if p x then f x :: xs else x :: updateFirst p f xs

/-- Mongo `delete_one` on `image_hashes` by `{"hash": h}`: remove the
first entry with that hash. -/
def deleteOne (hs : List DedupEntry) (h : String) : List DedupEntry :=
  match hs with
  | [] => []
  | e :: es => if e.hash == h then es else e :: deleteOne es h

/-- Mongo `$addToSet` on an array: append unless an identical element
is already present. -/
def addToSet (r : UploadRecord) (l : List UploadRecord) : List UploadRecord :=
  if r ∈ l then l else l ++ [r]

/-- The `$addToSet {"uploads": r}` update of `update_one` on the first
user document matching the username. -/
def addToSetUpload (users : List UserAccount) (username : String) (r : UploadRecord) :
    List UserAccount :=
  updateFirst (fun a => a.username == username)
    (fun a => { a with uploads := addToSet r a.uploads }) users

/-- The `$set {"uploads": l}` update of `update_one` on the first user
document matching the username. -/
def setUploads (users : List UserAccount) (username : String) (l : List UploadRecord) :
    List UserAccount :=
  updateFirst (fun a => a.username == username)
    (fun a => { a with uploads := l }) users

/-- Python `str.lower()` on ASCII text (the code lowercases filename
extensions). -/
def pyLower (s : String) : String :=
  String.mk (s.toList.map Char.toLower)

/-- Python `str.isalnum()`: nonempty and every character alphanumeric
(ASCII fragment). -/
def pyIsAlnum (s : String) : Bool :=
  !s.isEmpty && s.toList.all Char.isAlphanum

/-- The suffix of a character list starting at its last dot, if any dot
occurs. -/
def lastExt : List Char → Option (List Char)
  | [] => none
  | c :: cs =>
    match lastExt cs with
    | some e => some e
    | none => if c = '.' then some (c :: cs) else none

/-- Python `os.path.splitext(file_name)[1]` for a bare file name (no
directory separators, as produced by the upload widget): the extension
starts at the last dot, except that a name consisting of leading dots
only before that dot has no extension (e.g. `".hidden"` has none). -/
def splitext_ext (s : String) : String :=
  match lastExt s.toList with
  | none => ""
  | some suf =>
    if (s.toList.take (s.toList.length - suf.length)).all (· = '.') then ""
    else String.mk suf

/-- The accepted extension set of `upload_image`. -/
def allowedExts : List String := [".jpg", ".jpeg", ".png", ".gif", ".bmp"]

/-- The `hash_password` helper: SHA-256 hex digest of the password. -/
def hash_password (env : Env) (password : String) : String :=
  env.sha256 password

/-- The `calculate_hash` helper: MD5 hex digest of the image bytes. -/
def calculate_hash (env : Env) (image_data : Bytes) : String :=
  env.md5 image_data

/-- The `authenticate_user` function: reject non-alphanumeric usernames;
otherwise compare the password hash for a known username, or insert a
fresh account with an empty uploads ledger and report success. -/
def authenticate_user (env : Env) (db : DB) (username password : String) :
    Bool × DB :=
  if !pyIsAlnum username then (false, db)
  else
    match db.users.find? (fun a => a.username == username) with
    | some user => (hash_password env password == user.password_hash, db)
    | none =>
      (true,
       { db with
         users := db.users ++ [⟨username, hash_password env password, []⟩] })

/-- The `compress_and_reformat` function: decode, reject when the pixel
count exceeds 10,000,000 (the internal `ValueError` is caught by the
function's own handler), otherwise RGB-convert and re-encode as JPEG at
the given quality.  `none` models the `return None` of the handler. -/
def compress_and_reformat (env : Env) (image_data : Bytes) (quality : Nat) :
    Option Bytes :=
  match env.decode image_data with
  | none => none
  | some (w, h) =>
    if w * h > 10000000 then none
    else some (env.encode image_data quality)

/-- The `choose_storage_backend` function: Firebase for normalized
payloads of at most 140 * 1024 bytes, Cloudinary above. -/
def choose_storage_backend (compressed_data : Bytes) : Backend :=
  if compressed_data.length ≤ 140 * 1024 then Backend.firebase
  else Backend.cloudinary

/-- Discriminated outcome of `upload_image` (the Python function returns
human-readable strings; the discriminants and carried URLs are what the
callers and the spec consume). -/
inductive Outcome where
  | invalidFormat
  | duplicate (url : String)
  | processingFailed
  | uploadFailed
  | success (url : String)
deriving DecidableEq, Repr

/-- Observable processing steps of one `upload_image` call, in order:
the MD5 fingerprint computation, the normalization
(`compress_and_reformat`) call, and the backend `save` call. -/
inductive Ev where
  | hashEv
  | normalizeEv
  | saveEv (b : Backend)
deriving DecidableEq, Repr

/-- Result of one `upload_image` call: outcome, database state after the
call, and the ordered trace of processing steps that ran. -/
structure UploadResult where
  outcome : Outcome
  db : DB
  events : List Ev
deriving DecidableEq, Repr

/-- The `upload_image` function, line for line: hash first, then the
extension gate, then the dedup lookup (duplicate short-circuit with
`$addToSet`), then normalization, backend selection and `save`; only
after a successful save are the `image_hashes` insert and the ledger
`$addToSet` performed, and a raising save yields the upload-failed
outcome with no database write. -/
def upload_image (env : Env) (db : DB) (username : String) (image_data : Bytes)
    (file_name : String) : UploadResult :=
  let img_hash := calculate_hash env image_data
  let file_ext := pyLower (splitext_ext file_name)
  let final_name := img_hash ++ "__compressed.jpg"
  if !(allowedExts.contains file_ext) then
    ⟨Outcome.invalidFormat, db, [Ev.hashEv]⟩
  else
    match db.hashes.find? (fun e => e.hash == img_hash) with
    | some existing =>
      ⟨Outcome.duplicate existing.url,
       { db with
         users := addToSetUpload db.users username
           ⟨final_name, existing.url, img_hash⟩ },
       [Ev.hashEv]⟩
    | none =>
      match compress_and_reformat env image_data 85 with
      | none => ⟨Outcome.processingFailed, db, [Ev.hashEv, Ev.normalizeEv]⟩
      | some compressed =>
        let backend := choose_storage_backend compressed
        match env.saveResult backend final_name compressed with
        | none =>
          ⟨Outcome.uploadFailed, db,
           [Ev.hashEv, Ev.normalizeEv, Ev.saveEv backend]⟩
        | some url =>
          ⟨Outcome.success url,
           { hashes := db.hashes ++ [⟨img_hash, final_name, url, username⟩],
             users := addToSetUpload db.users username
               ⟨final_name, url, img_hash⟩ },
           [Ev.hashEv, Ev.normalizeEv, Ev.saveEv backend]⟩

/-- The loop body of `cleanup_invalid_images`: walk the user's uploads,
keeping records whose URL probe returns status 200, deleting the
`image_hashes` entry for records with any other status, and silently
skipping (dropping, without an index delete) records whose probe raises
(`except: continue`). -/
def cleanupLoop (env : Env) :
    List UploadRecord → List UploadRecord → List DedupEntry →
    List UploadRecord × List DedupEntry
  | [], valid, hs => (valid, hs)
  | img :: rest, valid, hs =>
    match env.probe img.url with
    | some code =>
      if code == 200 then cleanupLoop env rest (valid ++ [img]) hs
      else cleanupLoop env rest valid (deleteOne hs img.hash)
    | none => cleanupLoop env rest valid hs

/-- The `cleanup_invalid_images` function: look up the user, filter the
uploads by URL reachability (deleting `image_hashes` entries for
records that answered with a non-200 status), and write the filtered
list back with `$set`.  A missing user leaves the database unchanged. -/
def cleanup_invalid_images (env : Env) (db : DB) (username : String) : DB :=
  match db.users.find? (fun a => a.username == username) with
  | none => db
  | some user =>
    let r := cleanupLoop env user.uploads [] db.hashes
    { hashes := r.2, users := setUploads db.users username r.1 }

/-- Record-keep predicate of the cleanup loop: the probe answered with
status exactly 200. -/
def keepRec (env : Env) (r : UploadRecord) : Bool :=
  match env.probe r.url with
  | some c => c == 200
  | none => false

/-- Record-delete predicate of the cleanup loop: the probe answered with
a status other than 200 (a raising probe is neither kept nor deleted
from the index). -/
def badStatus (env : Env) (r : UploadRecord) : Bool :=
  match env.probe r.url with
  | some c => !(c == 200)
  | none => false

/-- Concrete oracle environment for evaluating the model: constant MD5
digest, identity SHA-256, every buffer decodes as a 1-by-1 image and
re-encodes to itself, saves succeed with a fixed URL, probes answer
status 200. -/
def env0 : Env :=
  ⟨fun _ => "m0", id, fun _ => some (1, 1), fun d _ => d,
   fun _ _ _ => some "url0", fun _ => some 200⟩

/-- Concrete environment whose backend `save` always raises. -/
def envSaveFail : Env :=
  ⟨fun _ => "m1", id, fun _ => some (2, 2), fun d _ => d,
   fun _ _ _ => none, fun _ => some 200⟩

/-- Concrete environment whose image decode always raises. -/
def envDecodeFail : Env :=
  ⟨fun _ => "m6", id, fun _ => none, fun d _ => d,
   fun _ _ _ => some "url6", fun _ => some 200⟩

/-- Concrete environment whose URL probe always raises (network
failure on every `requests.get`). -/
def envProbeFail : Env :=
  ⟨fun _ => "m3", id, fun _ => some (1, 1), fun d _ => d,
   fun _ _ _ => some "url3", fun _ => none⟩

/-- Concrete database: one index entry and one user whose ledger holds
the matching record. -/
def dbCarol : DB :=
  ⟨[⟨"h3", "f3", "url3", "carol"⟩],
   [⟨"carol", "pw", [⟨"f3", "url3", "h3"⟩]⟩]⟩

/-- Concrete database: a single registered user with an empty ledger
and password hash "sturdy". -/
def dbAlice : DB := ⟨[], [⟨"alice", "sturdy", []⟩]⟩

/-! Helper lemmas about the Mongo-operation models. -/

theorem find_append_of_none {α : Type} {p : α → Bool} {l1 l2 : List α}
    (h : l1.find? p = none) : (l1 ++ l2).find? p = l2.find? p := by
  induction l1 with
  | nil => rfl
  | cons x xs ih =>
    rcases hx : p x with _ | _
    · simp only [List.find?_cons, hx] at h
      simp only [List.cons_append, List.find?_cons, hx]
      exact ih h
    · simp only [List.find?_cons, hx] at h
      cases h

theorem addToSetUpload_noop (users : List UserAccount) (username : String)
    (r : UploadRecord) (acc : UserAccount)
    (hfound : users.find? (fun a => a.username == username) = some acc)
    (hmem : r ∈ acc.uploads) :
    addToSetUpload users username r = users := by
  induction users with
  | nil => cases hfound
  | cons x xs ih =>
    rcases hx : (x.username == username) with _ | _
    · simp only [List.find?_cons, hx] at hfound
      simp only [addToSetUpload, updateFirst, hx]
      simp only [addToSetUpload] at ih
      simp [ih hfound]
    · simp only [List.find?_cons, hx] at hfound
      injection hfound with hacc
      subst hacc
      simp only [addToSetUpload, updateFirst, hx]
      simp [addToSet, hmem]

theorem find?_setUploads (users : List UserAccount) (username : String)
    (l : List UploadRecord) (acc : UserAccount)
    (hfound : users.find? (fun a => a.username == username) = some acc) :
    (setUploads users username l).find? (fun a => a.username == username)
      = some { acc with uploads := l } := by
  induction users with
  | nil => cases hfound
  | cons x xs ih =>
    rcases hx : (x.username == username) with _ | _
    · simp only [List.find?_cons, hx] at hfound
      simp only [setUploads, updateFirst, hx] at ih ⊢
      simp only [Bool.false_eq_true, if_false, List.find?_cons, hx]
      exact ih hfound
    · simp only [List.find?_cons, hx] at hfound
      injection hfound with hacc
      subst hacc
      simp only [setUploads, updateFirst, hx]
      simp [List.find?_cons, hx]

theorem setUploads_set (users : List UserAccount) (username : String)
    (l1 l2 : List UploadRecord) :
    setUploads (setUploads users username l1) username l2
      = setUploads users username l2 := by
  induction users with
  | nil => rfl
  | cons x xs ih =>
    rcases hx : (x.username == username) with _ | _
    · simp only [setUploads, updateFirst, hx]
      simp only [setUploads] at ih
      simp [hx, ih]
    · simp only [setUploads, updateFirst, hx]
      simp [hx]

theorem filter_idem {α : Type} (p : α → Bool) (l : List α) :
    (l.filter p).filter p = l.filter p := by
  induction l with
  | nil => rfl
  | cons x xs ih =>
    rcases hx : p x with _ | _
    · simp [List.filter_cons, hx, ih]
    · simp [List.filter_cons, hx, ih]

theorem badStatus_eq_false_of_keep (env : Env) (r : UploadRecord)
    (h : keepRec env r = true) : badStatus env r = false := by
  unfold keepRec at h
  unfold badStatus
  rcases hp : env.probe r.url with _ | c
  · rfl
  · rw [hp] at h
    have h2 : (c == 200) = true := h
    show (!(c == 200)) = false
    simp [h2]

theorem filter_bad_keep (env : Env) (l : List UploadRecord) :
    (l.filter (keepRec env)).filter (badStatus env) = [] := by
  induction l with
  | nil => rfl
  | cons x xs ih =>
    rcases hx : keepRec env x with _ | _
    · simp [List.filter_cons, hx, ih]
    · simp [List.filter_cons, hx, badStatus_eq_false_of_keep env x hx, ih]

theorem cleanupLoop_eq (env : Env) (l : List UploadRecord) :
    ∀ (valid : List UploadRecord) (hs : List DedupEntry),
    cleanupLoop env l valid hs =
      (valid ++ l.filter (keepRec env),
       (l.filter (badStatus env)).foldl (fun h r => deleteOne h r.hash) hs) := by
  induction l with
  | nil => intro valid hs; simp [cleanupLoop]
  | cons img rest ih =>
    intro valid hs
    rcases hp : env.probe img.url with _ | code
    · have hk : keepRec env img = false := by unfold keepRec; rw [hp]
      have hb : badStatus env img = false := by unfold badStatus; rw [hp]
      simp only [cleanupLoop, hp]
      rw [ih]
      simp [List.filter_cons, hk, hb]
    · rcases hc : (code == 200) with _ | _
      · have hk : keepRec env img = false := by
          unfold keepRec; rw [hp]; exact hc
        have hb : badStatus env img = true := by
          unfold badStatus; rw [hp]; simp [hc]
        simp only [cleanupLoop, hp, hc, Bool.false_eq_true, if_false]
        rw [ih]
        simp [List.filter_cons, hk, hb]
      · have hk : keepRec env img = true := by
          unfold keepRec; rw [hp]; exact hc
        have hb : badStatus env img = false := by
          unfold badStatus; rw [hp]; simp [hc]
        simp only [cleanupLoop, hp, hc, if_true]
        rw [ih]
        simp [List.filter_cons, hk, hb]

/-- Closed form of `cleanup_invalid_images` when the user exists: the
written-back ledger is the sublist of records whose probe answered 200,
and the index loses one `delete_one` per record whose probe answered a
non-200 status (records whose probe raised delete nothing). -/
theorem cleanup_found_eq (env : Env) (db : DB) (username : String)
    (user : UserAccount)
    (hu : db.users.find? (fun a => a.username == username) = some user) :
    cleanup_invalid_images env db username =
      ⟨(user.uploads.filter (badStatus env)).foldl
          (fun hs r => deleteOne hs r.hash) db.hashes,
       setUploads db.users username (user.uploads.filter (keepRec env))⟩ := by
  unfold cleanup_invalid_images
  rw [hu]
  simp [cleanupLoop_eq]

/-- Inversion of a successful upload: a success outcome can only come
from the last branch of `upload_image`, so the extension was accepted,
the fingerprint was not yet in the index, and the database gained
exactly the new `image_hashes` entry and the ledger `$addToSet`. -/
theorem upload_success_inv (env : Env) (db : DB) (u : String) (data : Bytes)
    (fn : String) (url : String)
    (h1 : (upload_image env db u data fn).outcome = Outcome.success url) :
    allowedExts.contains (pyLower (splitext_ext fn)) = true ∧
    db.hashes.find? (fun e => e.hash == calculate_hash env data) = none ∧
    (upload_image env db u data fn).db =
      ⟨db.hashes ++ [⟨calculate_hash env data,
          calculate_hash env data ++ "__compressed.jpg", url, u⟩],
       addToSetUpload db.users u
         ⟨calculate_hash env data ++ "__compressed.jpg", url,
          calculate_hash env data⟩⟩ := by
  simp only [upload_image] at h1 ⊢
  split at h1
  next hext => simp at h1
  next hext =>
    have hextb : allowedExts.contains (pyLower (splitext_ext fn)) = true := by
      simpa using hext
    split at h1
    next existing hfind => simp at h1
    next hfind =>
      split at h1
      next hcomp => simp at h1
      next cd hcomp =>
        split at h1
        next hsave => simp at h1
        next url0 hsave =>
          simp at h1
          subst h1
          refine ⟨hextb, hfind, ?_⟩
          rw [if_neg hext]

/-! Claim theorems. -/

/-- C1: for every upload where the backend save raises, `upload_image`
reports the upload-failure outcome and the database is unchanged —
neither the `image_hashes` collection nor any user's ledger gains an
entry for that fingerprint, because the index and ledger writes only
happen after a successful save. -/
theorem C1_save_raises_atomic (env : Env) (db : DB) (username : String)
    (image_data : Bytes) (file_name : String) (cd : Bytes)
    (hext : allowedExts.contains (pyLower (splitext_ext file_name)) = true)
    (hdup : db.hashes.find? (fun e => e.hash == calculate_hash env image_data)
      = none)
    (hcomp : compress_and_reformat env image_data 85 = some cd)
    (hsave : env.saveResult (choose_storage_backend cd)
      (calculate_hash env image_data ++ "__compressed.jpg") cd = none) :
    (upload_image env db username image_data file_name).outcome
      = Outcome.uploadFailed ∧
    (upload_image env db username image_data file_name).db = db := by
  have hmem : pyLower (splitext_ext file_name) ∈ allowedExts := by
    simpa using hext
  simp [upload_image, hmem, hdup, hcomp, hsave]

/-- Witness for C1: a concrete upload against an always-raising save
oracle reports upload-failed and leaves the empty database empty. -/
theorem C1_save_raises_atomic_witness :
    (upload_image envSaveFail ⟨[], []⟩ "alice" [0] "a.jpg").outcome
      = Outcome.uploadFailed ∧
    (upload_image envSaveFail ⟨[], []⟩ "alice" [0] "a.jpg").db = ⟨[], []⟩ :=
  C1_save_raises_atomic envSaveFail ⟨[], []⟩ "alice" [0] "a.jpg" [0]
    (by decide) rfl rfl rfl

/-- C4 counterexample: the claim says a file with a rejected extension
is refused before any hashing occurs, but `upload_image` computes the
MD5 fingerprint (line `img_hash = calculate_hash(image_data)`) before
the extension gate: on the concrete input `x.txt` the outcome is the
invalid-format rejection, yet the hashing step is in the trace. -/
theorem C4_hash_precedes_gate_counterexample :
    (upload_image env0 ⟨[], []⟩ "alice" [7] "x.txt").outcome
      = Outcome.invalidFormat ∧
    Ev.hashEv ∈ (upload_image env0 ⟨[], []⟩ "alice" [7] "x.txt").events := by
  decide

/-- C4 amended: for every input whose original filename's extension is
not in the accepted set, `upload_image` rejects with the invalid-format
outcome, the database is untouched, and neither normalization nor a
backend save occurs — but the fingerprint computation does run before
the gate (the rejection trace is exactly the hashing step). -/
theorem C4_extension_gate_amended (env : Env) (db : DB) (username : String)
    (image_data : Bytes) (file_name : String)
    (hext : allowedExts.contains (pyLower (splitext_ext file_name)) = false) :
    upload_image env db username image_data file_name
      = ⟨Outcome.invalidFormat, db, [Ev.hashEv]⟩ := by
  have hnmem : pyLower (splitext_ext file_name) ∉ allowedExts := by
    simpa using hext
  simp [upload_image, hnmem]

/-- Witness for C4 amended: the concrete rejected upload of `x.txt`. -/
theorem C4_extension_gate_amended_witness :
    upload_image env0 ⟨[], []⟩ "alice" [7] "x.txt"
      = ⟨Outcome.invalidFormat, ⟨[], []⟩, [Ev.hashEv]⟩ :=
  C4_extension_gate_amended env0 ⟨[], []⟩ "alice" [7] "x.txt" (by decide)

/-- C5: backend selection is a pure function of the normalized payload
byte length; a payload of exactly 140 KiB (143360 bytes) routes to the
Firebase (compact) variant and one of 140 KiB + 1 byte routes to the
Cloudinary (general) variant. -/
theorem C5_backend_threshold (d1 d2 : Bytes)
    (h1 : d1.length = 143360) (h2 : d2.length = 143361) :
    choose_storage_backend d1 = Backend.firebase ∧
    choose_storage_backend d2 = Backend.cloudinary ∧
    (∀ e1 e2 : Bytes, e1.length = e2.length →
      choose_storage_backend e1 = choose_storage_backend e2) := by
  refine ⟨?_, ?_, ?_⟩
  · unfold choose_storage_backend
    rw [h1]
    norm_num
  · unfold choose_storage_backend
    rw [h2]
    norm_num
  · intro e1 e2 he
    unfold choose_storage_backend
    rw [he]

/-- Witness for C5: concrete payloads of 143360 and 143361 zero bytes. -/
theorem C5_backend_threshold_witness :
    choose_storage_backend (List.replicate 143360 0) = Backend.firebase ∧
    choose_storage_backend (List.replicate 143361 0) = Backend.cloudinary := by
  have h := C5_backend_threshold (List.replicate 143360 0)
    (List.replicate 143361 0) (by rw [List.length_replicate])
    (by rw [List.length_replicate])
  exact ⟨h.1, h.2.1⟩

/-- C6: for every upload reaching normalization (accepted extension,
fingerprint not in the index) whose image fails to decode or whose
decoded pixel count exceeds 10,000,000, `upload_image` reports the
processing-failure outcome and the database — index and all ledgers —
is unchanged. -/
theorem C6_processing_failure_atomic (env : Env) (db : DB) (username : String)
    (image_data : Bytes) (file_name : String)
    (hext : allowedExts.contains (pyLower (splitext_ext file_name)) = true)
    (hdup : db.hashes.find? (fun e => e.hash == calculate_hash env image_data)
      = none)
    (hbad : env.decode image_data = none ∨
      ∃ w h, env.decode image_data = some (w, h) ∧ w * h > 10000000) :
    (upload_image env db username image_data file_name).outcome
      = Outcome.processingFailed ∧
    (upload_image env db username image_data file_name).db = db := by
  have hcomp : compress_and_reformat env image_data 85 = none := by
    unfold compress_and_reformat
    rcases hbad with hb | ⟨w, h, hd, hgt⟩
    · rw [hb]
    · rw [hd]
      simp [hgt]
  have hmem : pyLower (splitext_ext file_name) ∈ allowedExts := by
    simpa using hext
  simp [upload_image, hmem, hdup, hcomp]

/-- Witness for C6: a concrete upload whose decode raises reports the
processing failure and leaves the empty database empty. -/
theorem C6_processing_failure_atomic_witness :
    (upload_image envDecodeFail ⟨[], []⟩ "alice" [5] "c.gif").outcome
      = Outcome.processingFailed ∧
    (upload_image envDecodeFail ⟨[], []⟩ "alice" [5] "c.gif").db = ⟨[], []⟩ :=
  C6_processing_failure_atomic envDecodeFail ⟨[], []⟩ "alice" [5] "c.gif"
    (by decide) rfl (Or.inl rfl)

/-- C2: after a successful upload, a second upload of byte-identical
content by any username (with an accepted filename extension) finds the
fingerprint in the DedupIndex and short-circuits: it returns the
Duplicate outcome carrying the first call's URL, performs no
normalization and no backend save, leaves the `image_hashes`
collection unchanged, merely `$addToSet`s the record pointing at the
existing URL into the caller's ledger, and re-adding an identical
record is a no-op. -/
theorem C2_dedup_short_circuit (env : Env) (db : DB) (u1 u2 : String)
    (data : Bytes) (fn1 fn2 url : String)
    (h1 : (upload_image env db u1 data fn1).outcome = Outcome.success url)
    (hext2 : allowedExts.contains (pyLower (splitext_ext fn2)) = true) :
    (upload_image env (upload_image env db u1 data fn1).db u2 data fn2).outcome
        = Outcome.duplicate url ∧
    Ev.normalizeEv ∉
      (upload_image env (upload_image env db u1 data fn1).db u2 data fn2).events ∧
    (∀ b, Ev.saveEv b ∉
      (upload_image env (upload_image env db u1 data fn1).db u2 data fn2).events) ∧
    (upload_image env (upload_image env db u1 data fn1).db u2 data fn2).db.hashes
        = (upload_image env db u1 data fn1).db.hashes ∧
    (upload_image env (upload_image env db u1 data fn1).db u2 data fn2).db.users
        = addToSetUpload (upload_image env db u1 data fn1).db.users u2
            ⟨calculate_hash env data ++ "__compressed.jpg", url,
             calculate_hash env data⟩ ∧
    (∀ acc,
      (upload_image env db u1 data fn1).db.users.find?
          (fun a => a.username == u2) = some acc →
      (⟨calculate_hash env data ++ "__compressed.jpg", url,
        calculate_hash env data⟩ : UploadRecord) ∈ acc.uploads →
      (upload_image env (upload_image env db u1 data fn1).db u2 data fn2).db.users
          = (upload_image env db u1 data fn1).db.users) := by
  obtain ⟨hext1, hfind, hdb1⟩ := upload_success_inv env db u1 data fn1 url h1
  have hfind2 : (db.hashes ++
      [(⟨calculate_hash env data, calculate_hash env data ++ "__compressed.jpg",
        url, u1⟩ : DedupEntry)]).find?
        (fun e => e.hash == calculate_hash env data)
      = some ⟨calculate_hash env data,
          calculate_hash env data ++ "__compressed.jpg", url, u1⟩ := by
    rw [find_append_of_none hfind]
    simp [List.find?_cons]
  have hmem2 : pyLower (splitext_ext fn2) ∈ allowedExts := by
    simpa using hext2
  rw [hdb1]
  have hred : upload_image env
      ⟨db.hashes ++
        [⟨calculate_hash env data,
          calculate_hash env data ++ "__compressed.jpg", url, u1⟩],
       addToSetUpload db.users u1
        ⟨calculate_hash env data ++ "__compressed.jpg", url,
         calculate_hash env data⟩⟩ u2 data fn2
      = ⟨Outcome.duplicate url,
         ⟨db.hashes ++
           [⟨calculate_hash env data,
             calculate_hash env data ++ "__compressed.jpg", url, u1⟩],
          addToSetUpload
            (addToSetUpload db.users u1
              ⟨calculate_hash env data ++ "__compressed.jpg", url,
               calculate_hash env data⟩) u2
            ⟨calculate_hash env data ++ "__compressed.jpg", url,
             calculate_hash env data⟩⟩,
         [Ev.hashEv]⟩ := by
    simp [upload_image, hmem2, hfind2]
  rw [hred]
  refine ⟨rfl, by simp, fun b => by simp, rfl, rfl, ?_⟩
  intro acc hacc hmemacc
  exact addToSetUpload_noop _ u2 _ acc hacc hmemacc

/-- Witness for C2: alice uploads two bytes successfully, bob uploads
the identical bytes and gets the Duplicate outcome with alice's URL
while the index is unchanged. -/
theorem C2_dedup_short_circuit_witness :
    (upload_image env0 (upload_image env0 ⟨[], []⟩ "alice" [1, 2] "a.png").db
        "bob" [1, 2] "b.jpg").outcome = Outcome.duplicate "url0" ∧
    (upload_image env0 (upload_image env0 ⟨[], []⟩ "alice" [1, 2] "a.png").db
        "bob" [1, 2] "b.jpg").db.hashes
      = (upload_image env0 ⟨[], []⟩ "alice" [1, 2] "a.png").db.hashes := by
  have h := C2_dedup_short_circuit env0 ⟨[], []⟩ "alice" "bob" [1, 2]
    "a.png" "b.jpg" "url0" (by decide) (by decide)
  exact ⟨h.1, h.2.2.2.1⟩

/-- C3 counterexample: the claim says a probe that fails with a network
error drops the ledger record AND deletes the DedupIndexEntry, but the
code's `except: continue` skips the index delete: with an
always-raising probe, carol's record is dropped from her ledger while
the `image_hashes` entry for its fingerprint survives. -/
theorem C3_network_error_keeps_index_counterexample :
    (cleanup_invalid_images envProbeFail dbCarol "carol").users
        = [⟨"carol", "pw", []⟩] ∧
    (cleanup_invalid_images envProbeFail dbCarol "carol").hashes
        = [⟨"h3", "f3", "url3", "carol"⟩] := by
  decide

/-- C3 amended: for a user present in the collection,
`cleanup_invalid_images` keeps exactly the records whose URL probe
returned status 200 (writing the filtered ledger back with `$set`);
records probed with any other status are dropped AND their
`image_hashes` entry is deleted, while records whose probe raised a
network error are dropped from the ledger WITHOUT deleting the index
entry (only non-200 statuses contribute a `delete_one`). -/
theorem C3_cleanup_characterization (env : Env) (db : DB) (username : String)
    (user : UserAccount)
    (hu : db.users.find? (fun a => a.username == username) = some user) :
    cleanup_invalid_images env db username =
      ⟨(user.uploads.filter (badStatus env)).foldl
          (fun hs r => deleteOne hs r.hash) db.hashes,
       setUploads db.users username (user.uploads.filter (keepRec env))⟩ :=
  cleanup_found_eq env db username user hu

/-- Witness for C3 amended: carol's database under the all-200 probe. -/
theorem C3_cleanup_characterization_witness :
    cleanup_invalid_images env0 dbCarol "carol" =
      ⟨(((⟨"carol", "pw", [⟨"f3", "url3", "h3"⟩]⟩ : UserAccount)).uploads.filter
          (badStatus env0)).foldl (fun hs r => deleteOne hs r.hash) dbCarol.hashes,
       setUploads dbCarol.users "carol"
        (((⟨"carol", "pw", [⟨"f3", "url3", "h3"⟩]⟩ : UserAccount)).uploads.filter
          (keepRec env0))⟩ :=
  C3_cleanup_characterization env0 dbCarol "carol"
    ⟨"carol", "pw", [⟨"f3", "url3", "h3"⟩]⟩ (by decide)

/-- C7 counterexample: the claim promises that any username not in the
users collection is auto-registered with any password and `true`
returned, but the empty username (not alphanumeric) is rejected by the
`isalnum` guard: authentication returns `false` and no account is
created. -/
theorem C7_empty_username_counterexample :
    (⟨[], []⟩ : DB).users.find? (fun a => a.username == "") = none ∧
    authenticate_user env0 ⟨[], []⟩ "" "pw" = (false, ⟨[], []⟩) := by
  decide

/-- C7 amended: for every ALPHANUMERIC username not present in the users
collection, `authenticate_user` with any password creates a UserAccount
with that username, the hash of the given password, and an empty
uploads ledger, and returns true. -/
theorem C7_auto_registration_amended (env : Env) (db : DB)
    (username password : String)
    (halnum : pyIsAlnum username = true)
    (hnew : db.users.find? (fun a => a.username == username) = none) :
    authenticate_user env db username password =
      (true,
       { db with
         users := db.users ++ [⟨username, hash_password env password, []⟩] }) := by
  unfold authenticate_user
  simp [halnum, hnew]

/-- Witness for C7 amended: registering alice in the empty database. -/
theorem C7_auto_registration_amended_witness :
    authenticate_user env0 ⟨[], []⟩ "alice" "pw" =
      (true, ⟨[], [⟨"alice", hash_password env0 "pw", []⟩]⟩) :=
  C7_auto_registration_amended env0 ⟨[], []⟩ "alice" "pw" (by decide) rfl

/-- C8: for every existing user account and every password whose hash
differs from the stored one, `authenticate_user` returns false (a
boolean failure) and the database — in particular the users
collection — is completely unchanged. -/
theorem C8_wrong_password_no_mutation (env : Env) (db : DB)
    (username password : String) (acc : UserAccount)
    (hfound : db.users.find? (fun a => a.username == username) = some acc)
    (hwrong : hash_password env password ≠ acc.password_hash) :
    authenticate_user env db username password = (false, db) := by
  unfold authenticate_user
  rcases hg : pyIsAlnum username with _ | _
  · simp [hg]
  · have hne : (hash_password env password == acc.password_hash) = false := by
      simp [hwrong]
    simp [hg, hfound, hne]

/-- Witness for C8: alice exists with stored hash "sturdy"; a wrong
password yields false and the database is untouched. -/
theorem C8_wrong_password_no_mutation_witness :
    authenticate_user env0 dbAlice "alice" "wrong" = (false, dbAlice) :=
  C8_wrong_password_no_mutation env0 dbAlice "alice" "wrong"
    ⟨"alice", "sturdy", []⟩ (by decide) (by decide)

/-- C9: running `cleanup_invalid_images` twice in a row for the same
username, with no intervening uploads and the probe oracle unchanged,
is a no-op the second time: the whole database (and in particular the
user's ledger) is identical after the second run. -/
theorem C9_cleanup_idempotent (env : Env) (db : DB) (username : String) :
    cleanup_invalid_images env (cleanup_invalid_images env db username) username
      = cleanup_invalid_images env db username := by
  rcases hu : db.users.find? (fun a => a.username == username) with _ | user
  · have h1 : cleanup_invalid_images env db username = db := by
      unfold cleanup_invalid_images
      rw [hu]
    rw [h1]
    exact h1
  · have hfind2 := find?_setUploads db.users username
      (user.uploads.filter (keepRec env)) user hu
    rw [cleanup_found_eq env db username user hu]
    rw [cleanup_found_eq env
      ⟨(user.uploads.filter (badStatus env)).foldl
          (fun hs r => deleteOne hs r.hash) db.hashes,
       setUploads db.users username (user.uploads.filter (keepRec env))⟩
      username { user with uploads := user.uploads.filter (keepRec env) }
      hfind2]
    simp only [filter_bad_keep, filter_idem, setUploads_set, List.foldl_nil]

/-- C10: for every username containing a non-alphanumeric character (or
empty), `authenticate_user` returns false immediately with the database
unchanged — no account is created — regardless of the password and of
whether the username already exists: the undocumented `isalnum` guard
restricts the auto-registration behaviour. -/
theorem C10_nonalnum_guard (env : Env) (db : DB) (username password : String)
    (h : username = "" ∨ ∃ c ∈ username.toList, c.isAlphanum = false) :
    authenticate_user env db username password = (false, db) := by
  have halnum : pyIsAlnum username = false := by
    rcases h with h | ⟨c, hc, hcf⟩
    · subst h
      rfl
    · unfold pyIsAlnum
      have hall : username.toList.all Char.isAlphanum = false := by
        rcases hall : username.toList.all Char.isAlphanum with _ | _
        · rfl
        · have hcv := List.all_eq_true.mp hall c hc
          rw [hcf] at hcv
          exact Bool.noConfusion hcv
      rw [hall, Bool.and_false]
  unfold authenticate_user
  simp [halnum]

/-- Witness for C10: the username "a b" (contains a space) is rejected
with no account creation. -/
theorem C10_nonalnum_guard_witness :
    authenticate_user env0 ⟨[], []⟩ "a b" "pw" = (false, ⟨[], []⟩) :=
  C10_nonalnum_guard env0 ⟨[], []⟩ "a b" "pw" (by decide)

end Cloud
